import Mathlib

/-!
Verification of the atmospheric sky rendering subsystem of the
Rotating-Glossy-Cube repository.

The development shallowly embeds the host-side sky controller
(`src/shaders/skyboxShader.js`, `src/objects/sky.js`) and the fragment
shader (`src/shaders/skyboxShader.frag`) into Lean.  JavaScript and GLSL
numbers are modelled as real numbers (the spec itself states its numeric
properties over the reals, "within ε"); `Math.PI` is read as `Real.pi`,
while numeric literals appearing in the source are kept verbatim as
decimal literals.  Mutation of the shader-uniform bag is modelled as
explicit state passing over a `SkyState` record whose fields are exactly
the uniforms created by `createSkyboxMaterial`.
-/

open Real

/-- 3-component vector, mirroring `THREE.Vector3` / GLSL `vec3`. -/
structure Vec3 where
  x : ℝ
  y : ℝ
  z : ℝ

namespace Vec3

def add (a b : Vec3) : Vec3 := ⟨a.x + b.x, a.y + b.y, a.z + b.z⟩

instance : Add Vec3 := ⟨add⟩

def sub (a b : Vec3) : Vec3 := ⟨a.x - b.x, a.y - b.y, a.z - b.z⟩

instance : Sub Vec3 := ⟨sub⟩

def neg (a : Vec3) : Vec3 := ⟨-a.x, -a.y, -a.z⟩

/-- Scalar multiplication (`vec * s` in GLSL, `multiplyScalar` in THREE). -/
def smul (a : Vec3) (s : ℝ) : Vec3 := ⟨a.x * s, a.y * s, a.z * s⟩

/-- Componentwise product (`vec * vec` in GLSL). -/
def cmul (a b : Vec3) : Vec3 := ⟨a.x * b.x, a.y * b.y, a.z * b.z⟩

/-- Componentwise division by a scalar (`vec / s`). -/
noncomputable def divs (a : Vec3) (s : ℝ) : Vec3 := ⟨a.x / s, a.y / s, a.z / s⟩

/-- Dot product. -/
def dot (a b : Vec3) : ℝ := a.x * b.x + a.y * b.y + a.z * b.z

/-- Euclidean length, `sqrt(x²+y²+z²)` (THREE `length()` / GLSL `length`). -/
noncomputable def length (a : Vec3) : ℝ := Real.sqrt (a.dot a)

/-- THREE.js `Vector3.normalize()`: `divideScalar(this.length() || 1)` —
a zero-length vector is left unchanged, otherwise divide by the length. -/
noncomputable def normalize (a : Vec3) : Vec3 :=
  if a.length = 0 then a else a.divs a.length

/-- GLSL `normalize`: plain division by the length (no zero guard). -/
noncomputable def glNormalize (a : Vec3) : Vec3 := a.divs a.length

/-- Componentwise `fract` (GLSL). -/
noncomputable def fractv (a : Vec3) : Vec3 := ⟨Int.fract a.x, Int.fract a.y, Int.fract a.z⟩

/-- Componentwise `floor` (GLSL), staying in ℝ. -/
noncomputable def floorv (a : Vec3) : Vec3 := ⟨⌊a.x⌋, ⌊a.y⌋, ⌊a.z⌋⟩

/-- Componentwise maximum (GLSL `max(vec, vec)`). -/
def maxv (a b : Vec3) : Vec3 := ⟨max a.x b.x, max a.y b.y, max a.z b.z⟩

end Vec3

/-- 2-component vector, mirroring GLSL `vec2`. -/
structure Vec2 where
  x : ℝ
  y : ℝ

namespace Vec2

def add (a b : Vec2) : Vec2 := ⟨a.x + b.x, a.y + b.y⟩

instance : Add Vec2 := ⟨add⟩

def smul (a : Vec2) (s : ℝ) : Vec2 := ⟨a.x * s, a.y * s⟩

noncomputable def divs (a : Vec2) (s : ℝ) : Vec2 := ⟨a.x / s, a.y / s⟩

end Vec2

/-- RGBA color, mirroring GLSL `vec4` (`gl_FragColor`). -/
structure Vec4 where
  r : ℝ
  g : ℝ
  b : ℝ
  a : ℝ

/-- GLSL `clamp(x, lo, hi) = min(max(x, lo), hi)`. -/
def clampR (x lo hi : ℝ) : ℝ := min (max x lo) hi

/-- GLSL `smoothstep(e0, e1, x)`: Hermite interpolation of the clamped
normalized position of `x` between the two edges. -/
noncomputable def smoothstepR (e0 e1 x : ℝ) : ℝ :=
  let t := clampR ((x - e0) / (e1 - e0)) 0 1
  t * t * (3 - 2 * t)

/-- GLSL `mix(x, y, a) = x*(1-a) + y*a`. -/
def mixR (x y a : ℝ) : ℝ := x * (1 - a) + y * a

/-- Componentwise `mix` on `vec3`. -/
def Vec3.mixv (u v : Vec3) (a : ℝ) : Vec3 :=
  ⟨mixR u.x v.x a, mixR u.y v.y a, mixR u.z v.z a⟩

/-- GLSL `pow`, modelled by the real power function. -/
noncomputable def glPow (x y : ℝ) : ℝ := Real.rpow x y

/-- GLSL `mod(x, y) = x - y*floor(x/y)`. -/
noncomputable def glMod (x y : ℝ) : ℝ := x - y * ⌊x / y⌋

/-- `THREE.MathUtils.degToRad`: `degrees * (Math.PI / 180)`. -/
noncomputable def degToRad (d : ℝ) : ℝ := d * (Real.pi / 180)

/-- `THREE.Vector3.setFromSphericalCoords(radius, phi, theta)`:
`x = sin(phi)*radius*sin(theta)`, `y = cos(phi)*radius`,
`z = sin(phi)*radius*cos(theta)`. -/
noncomputable def setFromSphericalCoords (radius phi theta : ℝ) : Vec3 :=
  ⟨Real.sin phi * radius * Real.sin theta,
   Real.cos phi * radius,
   Real.sin phi * radius * Real.cos theta⟩

/--
The shader-uniform bag created by `createSkyboxMaterial`
(`src/shaders/skyboxShader.js`, lines 60–87).  One field per uniform;
this is the spec's `SkyParameters`.  `qualityLevel` is a JS number
(the shader consumes it as an int).
-/
structure SkyState where
  sunDirection : Vec3
  sunIntensity : ℝ
  moonDirection : Vec3
  moonIntensity : ℝ
  turbidity : ℝ
  rayleighCoeff : ℝ
  mieCoeff : ℝ
  mieDirectionalG : ℝ
  timeOfDay : ℝ
  cloudCoverage : ℝ
  starIntensity : ℝ
  time : ℝ
  enableStars : Bool
  enableClouds : Bool
  enableMoon : Bool
  enableSunDisc : Bool
  qualityLevel : ℝ

/-- The direction written by `updateSunPosition`/`updateMoonPosition`
from an azimuth/elevation pair:
`(cos(elevation)*sin(azimuth), sin(elevation), cos(elevation)*cos(azimuth))`. -/
noncomputable def dirFromAzEl (azimuth elevation : ℝ) : Vec3 :=
  ⟨Real.cos elevation * Real.sin azimuth,
   Real.sin elevation,
   Real.cos elevation * Real.cos azimuth⟩

/-- `updateSunPosition(material, azimuth, elevation, intensity = null)`
(`skyboxShader.js` lines 121–145): writes `sunDirection`, optionally
`sunIntensity`, and recomputes `timeOfDay = (sin(elevation)+1)*0.5`. -/
noncomputable def updateSunPosition (azimuth elevation : ℝ) (intensity : Option ℝ)
    (st : SkyState) : SkyState :=
  let sunDirection := dirFromAzEl azimuth elevation
  let st1 := { st with sunDirection := sunDirection }
  let st2 := match intensity with
    | some i => { st1 with sunIntensity := i }
    | none => st1
  { st2 with timeOfDay := (Real.sin elevation + 1.0) * 0.5 }

/-- `updateSunFromSpherical(material, radius, phi, theta)`
(`skyboxShader.js` lines 154–167): builds the position from spherical
coordinates, normalizes it, writes `sunDirection` and
`timeOfDay = (sunPosition.y + 1)*0.5`. -/
noncomputable def updateSunFromSpherical (radius phi theta : ℝ)
    (st : SkyState) : SkyState :=
  let sunPosition := (setFromSphericalCoords radius phi theta).normalize
  { st with sunDirection := sunPosition,
            timeOfDay := (sunPosition.y + 1.0) * 0.5 }

/-- `updateMoonPosition(material, azimuth, elevation, intensity = null)`
(`skyboxShader.js` lines 176–195): writes `moonDirection` and optionally
`moonIntensity`. -/
noncomputable def updateMoonPosition (azimuth elevation : ℝ) (intensity : Option ℝ)
    (st : SkyState) : SkyState :=
  let moonDirection := dirFromAzEl azimuth elevation
  let st1 := { st with moonDirection := moonDirection }
  match intensity with
  | some i => { st1 with moonIntensity := i }
  | none => st1

/-- The sun elevation computed by `animateDayNightCycle`:
`Math.sin(angle) * Math.PI * 0.4` with `angle = time * speed`. -/
noncomputable def animElevation (time speed : ℝ) : ℝ :=
  Real.sin (time * speed) * Real.pi * 0.4

/-- The sun azimuth computed by `animateDayNightCycle`: `angle = time * speed`. -/
def animAzimuth (time speed : ℝ) : ℝ := time * speed

/-- `animateDayNightCycle(material, time, speed = 0.1)`
(`skyboxShader.js` lines 203–233), in source order:
set the `time` uniform; place the sun on its circular path; place the
moon at the opposite azimuth and negated elevation; derive
`moonIntensity = max(0, -sin(elevation)) * 1.5`; and update
`cloudCoverage = max(0, baseCoverage - sin(timeOfDay*π)*0.2)` where
`baseCoverage` is the *current* `cloudCoverage` uniform value. -/
noncomputable def animateDayNightCycle (time speed : ℝ) (st : SkyState) : SkyState :=
  let st1 := { st with time := time }
  let elevation := animElevation time speed
  let azimuth := animAzimuth time speed
  let st2 := updateSunPosition azimuth elevation none st1
  let moonElevation := -elevation
  let moonAzimuth := azimuth + Real.pi
  let st3 := updateMoonPosition moonAzimuth moonElevation none st2
  let nightFactor := max 0 (-Real.sin elevation)
  let st4 := { st3 with moonIntensity := nightFactor * 1.5 }
  let baseCoverage := st4.cloudCoverage
  let timeOfDay := (Real.sin (time * speed) + 1.0) * 0.5
  let coverageVariation := Real.sin (timeOfDay * Real.pi) * 0.2
  { st4 with cloudCoverage := max 0 (baseCoverage - coverageVariation) }

/-- The cloud-coverage variation subtracted by one `animateDayNightCycle`
call: `sin(((sin(time*speed)+1)*0.5) * π) * 0.2`. -/
noncomputable def coverageVariation (time speed : ℝ) : ℝ :=
  Real.sin (((Real.sin (time * speed) + 1.0) * 0.5) * Real.pi) * 0.2

/-- Sky controller `animate(time, speed = 0.1)` (`sky.js` lines 60–62):
delegates to `animateDayNightCycle`. -/
noncomputable def animate (time speed : ℝ) (st : SkyState) : SkyState :=
  animateDayNightCycle time speed st

/-- Sky controller `setSunPosition(elevation, azimuth)` (`sky.js` lines
49–53): degrees → radians (`phi = degToRad(90 - elevation)`,
`theta = degToRad(azimuth)`), then `updateSunFromSpherical(material, 1, phi, theta)`. -/
noncomputable def setSunPosition (elevation azimuth : ℝ) (st : SkyState) : SkyState :=
  updateSunFromSpherical 1 (degToRad (90 - elevation)) (degToRad azimuth) st

/-- `autoAdjustQuality(material, currentFPS, targetFPS = 60)`
(`skyboxShader.js` lines 241–257). -/
noncomputable def autoAdjustQuality (currentFPS targetFPS : ℝ) (st : SkyState) : SkyState :=
  let currentQuality := st.qualityLevel
  if currentFPS < targetFPS * 0.8 then
    if currentQuality > 0 then { st with qualityLevel := currentQuality - 1 } else st
  else if currentFPS > targetFPS * 0.95 then
    if currentQuality < 2 then { st with qualityLevel := currentQuality + 1 } else st
  else st

/-- A value stored in a shader uniform by a preset: presets contain
numbers and booleans (`skyboxShader.js` lines 262–342). -/
inductive UVal where
  | num (v : ℝ)
  | flag (b : Bool)

/-- A preset is the ordered `(key, value)` list of the source object
literal; `Object.keys` enumerates the keys in this insertion order. -/
abbrev Preset := List (String × UVal)

/-- `SkyPresets.CLEAR_DAY` (`skyboxShader.js` lines 264–277). -/
noncomputable def CLEAR_DAY : Preset :=
  [("turbidity", .num 2.0), ("rayleigh", .num 1.0),
   ("mieCoefficient", .num 0.005), ("mieDirectionalG", .num 0.8),
   ("sunIntensity", .num 1.0), ("cloudCoverage", .num 0.35),
   ("starIntensity", .num 0.5), ("moonIntensity", .num 0.2),
   ("enableStars", .flag true), ("enableClouds", .flag true),
   ("enableMoon", .flag true), ("enableSunDisc", .flag true)]

/-- `SkyPresets.OVERCAST` (`skyboxShader.js` lines 280–293). -/
noncomputable def OVERCAST : Preset :=
  [("turbidity", .num 10.0), ("rayleigh", .num 2.0),
   ("mieCoefficient", .num 0.02), ("mieDirectionalG", .num 0.5),
   ("sunIntensity", .num 0.5), ("cloudCoverage", .num 0.8),
   ("starIntensity", .num 0.0), ("moonIntensity", .num 0.0),
   ("enableStars", .flag false), ("enableClouds", .flag true),
   ("enableMoon", .flag false), ("enableSunDisc", .flag false)]

/-- `SkyPresets.SUNSET` (`skyboxShader.js` lines 296–309). -/
noncomputable def SUNSET : Preset :=
  [("turbidity", .num 4.0), ("rayleigh", .num 2.0),
   ("mieCoefficient", .num 0.01), ("mieDirectionalG", .num 0.9),
   ("sunIntensity", .num 1.5), ("cloudCoverage", .num 0.3),
   ("starIntensity", .num 0.3), ("moonIntensity", .num 0.8),
   ("enableStars", .flag true), ("enableClouds", .flag true),
   ("enableMoon", .flag true), ("enableSunDisc", .flag true)]

/-- `SkyPresets.NIGHT` (`skyboxShader.js` lines 312–325). -/
noncomputable def NIGHT : Preset :=
  [("turbidity", .num 1.0), ("rayleigh", .num 0.5),
   ("mieCoefficient", .num 0.002), ("mieDirectionalG", .num 0.8),
   ("sunIntensity", .num 0.1), ("cloudCoverage", .num 0.0),
   ("starIntensity", .num 1.0), ("moonIntensity", .num 1.5),
   ("enableStars", .flag true), ("enableClouds", .flag false),
   ("enableMoon", .flag true), ("enableSunDisc", .flag false)]

/-- `SkyPresets.HAZY_SUMMER` (`skyboxShader.js` lines 328–341). -/
noncomputable def HAZY_SUMMER : Preset :=
  [("turbidity", .num 6.0), ("rayleigh", .num 1.5),
   ("mieCoefficient", .num 0.015), ("mieDirectionalG", .num 0.7),
   ("sunIntensity", .num 1.2), ("cloudCoverage", .num 0.2),
   ("starIntensity", .num 0.2), ("moonIntensity", .num 0.3),
   ("enableStars", .flag true), ("enableClouds", .flag true),
   ("enableMoon", .flag true), ("enableSunDisc", .flag true)]

/-- Property lookup `SkyPresets[presetName]`: the catalog has exactly the
five named presets; any other name yields `undefined` (`none`). -/
noncomputable def SkyPresets (name : String) : Option Preset :=
  match name with
  | "CLEAR_DAY" => some CLEAR_DAY
  | "OVERCAST" => some OVERCAST
  | "SUNSET" => some SUNSET
  | "NIGHT" => some NIGHT
  | "HAZY_SUMMER" => some HAZY_SUMMER
  | _ => none

/-- One iteration of the `applyPreset` loop
(`if (skybox.material.uniforms[key]) uniforms[key].value = preset[key]`,
`sky.js` lines 144–148).  The named cases are exactly the scalar/boolean
uniform names created by `createSkyboxMaterial`; for any other key —
in particular the preset keys `"rayleigh"` and `"mieCoefficient"`, which
match no uniform name (the uniforms are called `rayleighCoeff` and
`mieCoeff`) — `uniforms[key]` is `undefined`, the guard fails, and the
state is unchanged. -/
def setUniformValue (st : SkyState) (key : String) (v : UVal) : SkyState :=
  match key, v with
  | "sunIntensity", .num x => { st with sunIntensity := x }
  | "moonIntensity", .num x => { st with moonIntensity := x }
  | "turbidity", .num x => { st with turbidity := x }
  | "rayleighCoeff", .num x => { st with rayleighCoeff := x }
  | "mieCoeff", .num x => { st with mieCoeff := x }
  | "mieDirectionalG", .num x => { st with mieDirectionalG := x }
  | "timeOfDay", .num x => { st with timeOfDay := x }
  | "cloudCoverage", .num x => { st with cloudCoverage := x }
  | "starIntensity", .num x => { st with starIntensity := x }
  | "time", .num x => { st with time := x }
  | "qualityLevel", .num x => { st with qualityLevel := x }
  | "enableStars", .flag b => { st with enableStars := b }
  | "enableClouds", .flag b => { st with enableClouds := b }
  | "enableMoon", .flag b => { st with enableMoon := b }
  | "enableSunDisc", .flag b => { st with enableSunDisc := b }
  | _, _ => st

/-- Sky controller `applyPreset(presetName)` (`sky.js` lines 141–150):
look the name up in `SkyPresets`; if absent do nothing; if present walk
`Object.keys(preset)` writing each value into the uniform of the same
name when such a uniform exists. -/
noncomputable def applyPreset (name : String) (st : SkyState) : SkyState :=
  match SkyPresets name with
  | some preset => preset.foldl (fun s kv => setUniformValue s kv.1 kv.2) st
  | none => st

/-- A concrete `SkyState` used to instantiate theorems on explicit
inputs (values within the documented parameter ranges). -/
def testState : SkyState :=
  { sunDirection := ⟨0, 1, 0⟩
    sunIntensity := 1
    moonDirection := ⟨0, 0, 1⟩
    moonIntensity := 1
    turbidity := 2
    rayleighCoeff := 1
    mieCoeff := 0.005
    mieDirectionalG := 0.8
    timeOfDay := 0.5
    cloudCoverage := 0.4
    starIntensity := 0.5
    time := 0
    enableStars := true
    enableClouds := true
    enableMoon := true
    enableSunDisc := true
    qualityLevel := 1 }

/-! ## Fragment shader (`src/shaders/skyboxShader.frag`) -/

/-- Shader constant `PI` (the source literal, line 35). -/
def PI : ℝ := 3.141592653589793

/-- Shader constant `TWO_PI` (line 36). -/
def TWO_PI : ℝ := 6.283185307179586

/-- Shader constant `WAVELENGTHS = vec3(0.680, 0.550, 0.440)` (line 40). -/
def WAVELENGTHS : Vec3 := ⟨0.680, 0.550, 0.440⟩

/-- Shader constant `HORIZON_FADE = 0.02` (line 50). -/
def HORIZON_FADE : ℝ := 0.02

/-- `rayleighPhase(cosTheta)` (lines 67–70). -/
def rayleighPhase (cosTheta : ℝ) : ℝ := 0.75 * (1.0 + cosTheta * cosTheta)

/-- `miePhase(cosTheta, g)` (lines 76–81), Henyey–Greenstein. -/
noncomputable def miePhase (cosTheta g : ℝ) : ℝ :=
  let g2 := g * g
  let nom := 1.0 - g2
  let denom := glPow (1.0 + g2 - 2.0 * g * cosTheta) 1.5
  nom / (4.0 * PI * denom)

/-- Componentwise `pow` on `vec3`. -/
noncomputable def Vec3.powv (a e : Vec3) : Vec3 :=
  ⟨glPow a.x e.x, glPow a.y e.y, glPow a.z e.z⟩

/-- `atmosphericScattering(rayDir, sunDir, sunInt)` (lines 87–119).
The body reads the uniforms `rayleighCoeff`, `mieCoeff` and
`mieDirectionalG`, passed here as explicit arguments. -/
noncomputable def atmosphericScattering (rayDir sunDir : Vec3)
    (sunInt rayleighCoeff mieCoeff mieDirectionalG : ℝ) : Vec3 :=
  let horizonFactor := smoothstepR (-HORIZON_FADE) HORIZON_FADE rayDir.y
  if horizonFactor ≤ 0.0 then ⟨0.0, 0.0, 0.0⟩
  else
    let cosTheta := rayDir.dot sunDir
    let rayHeight := rayDir.y
    let opticalDepthR := Real.exp (-rayHeight * 4.0) * rayleighCoeff
    let opticalDepthM := Real.exp (-rayHeight * 2.0) * mieCoeff
    let phaseR := rayleighPhase cosTheta
    let phaseM := miePhase cosTheta mieDirectionalG
    let wavelengthFactors := WAVELENGTHS.powv ⟨-4.0, -4.0, -4.0⟩
    let rayleigh := (wavelengthFactors.smul phaseR).smul opticalDepthR
    let mie : Vec3 := ⟨phaseM * opticalDepthM, phaseM * opticalDepthM, phaseM * opticalDepthM⟩
    let scattering := (rayleigh + mie).smul sunInt
    scattering.smul horizonFactor

/-- `skyGradient(rayDir, sunDir)` (lines 125–157). -/
noncomputable def skyGradient (rayDir sunDir : Vec3) : Vec3 :=
  let sunHeight := sunDir.y
  let rayHeight := rayDir.y
  let zenithColor := Vec3.mixv ⟨0.05, 0.05, 0.15⟩ ⟨0.35, 0.5, 0.85⟩
    (smoothstepR (-0.1) 0.3 sunHeight)
  let horizonColor := Vec3.mixv ⟨0.1, 0.1, 0.2⟩ ⟨0.85, 0.75, 0.6⟩
    (smoothstepR (-0.1) 0.3 sunHeight)
  let sunsetFactor := 1.0 - |sunHeight|
  let sunsetFactor := glPow sunsetFactor 2.0
  let horizonColor := Vec3.mixv horizonColor ⟨1.0, 0.5, 0.3⟩ (sunsetFactor * 0.5)
  let gradientFactor := glPow (max 0.0 rayHeight) 0.4
  let skyColor := Vec3.mixv horizonColor zenithColor gradientFactor
  let sunDot := rayDir.dot sunDir
  let sunGlow := glPow (max 0.0 sunDot) 32.0
  skyColor + ((Vec3.smul ⟨1.0, 0.9, 0.7⟩ sunGlow).smul (max 0.0 sunHeight))

/-- `hash(p)` (lines 162–166), embedded as `hashv`: deterministic procedural hash.
`p += dot(p, p.yzx + 19.19)` adds the scalar dot product to every
component. -/
noncomputable def hashv (p : Vec3) : ℝ :=
  let p1 := (p.cmul ⟨443.897, 441.423, 437.195⟩).fractv
  let d := p1.dot ⟨p1.y + 19.19, p1.z + 19.19, p1.x + 19.19⟩
  let p2 := p1 + (⟨d, d, d⟩ : Vec3)
  Int.fract ((p2.x + p2.y) * p2.z)

/-- The body of the innermost star loop of `renderStars` (lines 185–224)
for one neighbor cell: accumulates the star contribution onto `acc`.
`time` is the `time` uniform. -/
noncomputable def starCell (time : ℝ) (rayDir : Vec3) (layer : ℝ) (layerScale : ℝ)
    (cellId : Vec3) (off : Vec3) (acc : Vec3) : Vec3 :=
  let neighbor := cellId + off
  let h := hashv neighbor
  let threshold := 0.95 + layer * 0.015
  if h > threshold then
    let starPos := neighbor + (⟨hashv (neighbor.smul 1.1), hashv (neighbor.smul 1.3),
      hashv (neighbor.smul 1.7)⟩ : Vec3)
    let toStar := ((starPos.divs layerScale).sub rayDir).glNormalize
    let dist := toStar.length
    let size := (0.002 + hashv (neighbor.smul 2.0) * 0.003) / (1.0 + layer)
    let star := 1.0 - smoothstepR 0.0 size dist
    let twinkle := Real.sin (time * (2.0 + hashv (neighbor.smul 3.0) * 3.0) + h * TWO_PI) * 0.3 + 0.7
    let star := star * twinkle
    let brightness := 0.5 + hashv (neighbor.smul 4.0) * 0.5
    let star := star * brightness
    let starColor : Vec3 := ⟨1.0, 1.0, 1.0⟩
    let colorVar := hashv (neighbor.smul 5.0)
    let starColor :=
      if colorVar > 0.7 then Vec3.mixv ⟨1.0, 1.0, 1.0⟩ ⟨0.8, 0.9, 1.0⟩ ((colorVar - 0.7) * 3.0)
      else if colorVar < 0.3 then Vec3.mixv ⟨1.0, 1.0, 1.0⟩ ⟨1.0, 0.9, 0.8⟩ ((0.3 - colorVar) * 3.0)
      else starColor
    acc + starColor.smul star
  else acc

/-- `renderStars(rayDir, intensity)` (lines 171–235): three star layers,
each scanning the 27 neighboring grid cells in the source loop order
(`x` outermost, then `y`, then `z`, each over −1, 0, 1). -/
noncomputable def renderStars (time : ℝ) (rayDir : Vec3) (intensity : ℝ) : Vec3 :=
  let ds : List ℝ := [-1.0, 0.0, 1.0]
  let totalStars := (List.range 3).foldl (fun acc layerN =>
    let layer : ℝ := (layerN : ℝ)
    let layerScale := 500.0 + layer * 300.0
    let p := rayDir.smul layerScale
    let cellId := p.floorv
    ds.foldl (fun acc x =>
      ds.foldl (fun acc y =>
        ds.foldl (fun acc z =>
          starCell time rayDir layer layerScale cellId ⟨x, y, z⟩ acc) acc) acc) acc)
    (⟨0.0, 0.0, 0.0⟩ : Vec3)
  let visibilityFactor := smoothstepR (-0.1) 0.3 rayDir.y
  totalStars.smul (visibilityFactor * intensity)

/-- `noise2D(p)` (lines 240–251): smoothed 2D value noise. -/
noncomputable def noise2D (p : Vec2) : ℝ :=
  let i : Vec2 := ⟨⌊p.x⌋, ⌊p.y⌋⟩
  let f : Vec2 := ⟨Int.fract p.x, Int.fract p.y⟩
  let f : Vec2 := ⟨f.x * f.x * (3.0 - 2.0 * f.x), f.y * f.y * (3.0 - 2.0 * f.y)⟩
  let a := hashv ⟨i.x, i.y, 0.0⟩
  let b := hashv ⟨i.x + 1.0, i.y, 0.0⟩
  let c := hashv ⟨i.x, i.y + 1.0, 0.0⟩
  let d := hashv ⟨i.x + 1.0, i.y + 1.0, 0.0⟩
  mixR (mixR a b f.x) (mixR c d f.x) f.y

/-- The `fbm` loop (lines 256–269), fuel = remaining iterations of the
8-iteration loop; the loop breaks as soon as `i ≥ octaves`. -/
noncomputable def fbmGo (p : Vec2) (octaves : ℤ) (fuel : ℕ) (i : ℤ)
    (value amplitude frequency : ℝ) : ℝ :=
  match fuel with
  | 0 => value
  | fuel' + 1 =>
    if i ≥ octaves then value
    else fbmGo p octaves fuel' (i + 1)
      (value + amplitude * noise2D (p.smul frequency)) (amplitude * 0.5) (frequency * 2.0)

/-- `fbm(p, octaves)` (lines 256–269). -/
noncomputable def fbm (p : Vec2) (octaves : ℤ) : ℝ :=
  fbmGo p octaves 8 0 0.0 0.5 1.0

/-- `renderClouds(rayDir, coverage)` (lines 274–308); reads the `time`
and `qualityLevel` uniforms. -/
noncomputable def renderClouds (time qualityLevel : ℝ) (rayDir : Vec3)
    (coverage : ℝ) : ℝ :=
  if rayDir.y < 0.1 then 0.0
  else
    let cloudCoords := (Vec2.mk rayDir.x rayDir.z).divs (max 0.1 rayDir.y)
    let cloudCoords := cloudCoords + (⟨time * 0.02, time * 0.02⟩ : Vec2)
    let octaves : ℤ := if qualityLevel = 0 then 3 else if qualityLevel = 1 then 4 else 5
    let cloudNoise := fbm (cloudCoords.smul 0.5) octaves
    let detailNoise := fbm (cloudCoords.smul 2.0 + (⟨time * 0.03, time * 0.03⟩ : Vec2)) 3 * 0.3
    let cloudNoise := cloudNoise + detailNoise
    let cloudNoise := cloudNoise * 0.5 + 0.5
    let threshold := 1.0 - coverage
    let cloud := smoothstepR threshold (threshold + 0.1) cloudNoise
    let density := smoothstepR (threshold - 0.1) (threshold + 0.2) cloudNoise
    let cloud := cloud * density
    cloud * smoothstepR 0.0 0.3 rayDir.y

/-- `renderSunDisc(rayDir, sunDir, intensity)` (lines 313–339). -/
noncomputable def renderSunDisc (rayDir sunDir : Vec3) (intensity : ℝ) : Vec3 :=
  let sunDot := rayDir.dot sunDir
  let sunDisc := smoothstepR 0.9998 0.9999 sunDot
  let sunColor := (Vec3.smul ⟨1.0, 0.98, 0.95⟩ intensity).smul 20.0
  let corona := glPow (max 0.0 sunDot) 200.0
  let coronaColor := (Vec3.smul ⟨1.0, 0.95, 0.85⟩ intensity).smul 3.0
  let halo := glPow (max 0.0 sunDot) 12.0
  let haloColor := (Vec3.smul ⟨1.0, 0.9, 0.7⟩ intensity).smul 0.8
  let limbDarkening := 1.0 - smoothstepR 0.9998 0.99995 sunDot * 0.3
  let sun := (sunColor.smul sunDisc).smul limbDarkening +
    coronaColor.smul corona + haloColor.smul halo
  let sunVisibility := smoothstepR (-0.1) 0.0 sunDir.y
  sun.smul sunVisibility

/-- The moon phase computed by `renderMoon` (line 352):
`phase = (dot(moonDir, sunDir) + 1) * 0.5` — 0 at `dot = -1`,
1 at `dot = 1`. -/
def moonPhase (moonDir sunDir : Vec3) : ℝ := (moonDir.dot sunDir + 1.0) * 0.5

/-- The moon surface brightness factor (line 355):
`moonBrightness = phase * 0.8 + 0.2`. -/
def moonBrightness (phase : ℝ) : ℝ := phase * 0.8 + 0.2

/-- `renderMoon(rayDir, moonDir, sunDir, intensity)` (lines 344–372). -/
noncomputable def renderMoon (rayDir moonDir sunDir : Vec3) (intensity : ℝ) : Vec3 :=
  let moonDot := rayDir.dot moonDir
  let moonDisc := smoothstepR 0.9996 0.9998 moonDot
  let phase := moonPhase moonDir sunDir
  let brightness := moonBrightness phase
  let moonColor := ((Vec3.smul ⟨0.95, 0.95, 0.9⟩ brightness).smul intensity).smul 2.0
  let moonGlow := glPow (max 0.0 moonDot) 100.0
  let glowColor := (Vec3.smul ⟨0.9, 0.9, 1.0⟩ intensity).smul 0.5
  let moon := moonColor.smul moonDisc + glowColor.smul moonGlow
  let moonVisibility := smoothstepR (-0.1) 0.0 moonDir.y
  moon.smul moonVisibility

/-- The 4×4 Bayer matrix of `dither` (lines 379–383), indexed 0–15. -/
def bayerMatrix (i : ℤ) : ℝ :=
  if i = 0 then 0.0 else if i = 1 then 8.0 else if i = 2 then 2.0
  else if i = 3 then 10.0 else if i = 4 then 12.0 else if i = 5 then 4.0
  else if i = 6 then 14.0 else if i = 7 then 6.0 else if i = 8 then 3.0
  else if i = 9 then 11.0 else if i = 10 then 1.0 else if i = 11 then 9.0
  else if i = 12 then 15.0 else if i = 13 then 7.0 else if i = 14 then 13.0
  else if i = 15 then 5.0 else 0.0

/-- `dither(screenPos)` (lines 377–389).  `mod(x, 4.0)` lands in
`[0, 4)`, so the GLSL `int()` truncation coincides with `floor`. -/
noncomputable def dither (screenPos : Vec2) : ℝ :=
  let coord : Vec2 := ⟨glMod screenPos.x 4.0, glMod screenPos.y 4.0⟩
  let index : ℤ := ⌊coord.x⌋ + ⌊coord.y⌋ * 4
  (bayerMatrix index / 16.0 - 0.5) / 255.0

/-- One channel of `acesToneMapping` (lines 394–401), with
`a=2.51, b=0.03, c=2.43, d=0.59, e=0.14`. -/
noncomputable def acesChannel (x : ℝ) : ℝ :=
  clampR ((x * (2.51 * x + 0.03)) / (x * (2.43 * x + 0.59) + 0.14)) 0.0 1.0

/-- `acesToneMapping(color)` (lines 394–401), componentwise. -/
noncomputable def acesToneMapping (color : Vec3) : Vec3 :=
  ⟨acesChannel color.x, acesChannel color.y, acesChannel color.z⟩

/-- The fragment shader `main` (lines 403–479): one full per-sample
evaluation, from the interpolated world direction and fragment
coordinate to the written `gl_FragColor`. -/
noncomputable def shaderMain (st : SkyState) (vWorldDirection : Vec3)
    (fragCoord : Vec2) : Vec4 :=
  let rayDir := vWorldDirection.glNormalize
  let sunDir := st.sunDirection.glNormalize
  let moonDir := st.moonDirection.glNormalize
  let finalColor :=
    if st.qualityLevel ≥ 1 then
      let scatter := atmosphericScattering rayDir sunDir st.sunIntensity
        st.rayleighCoeff st.mieCoeff st.mieDirectionalG
      let gradient := skyGradient rayDir sunDir
      Vec3.mixv gradient scatter (min 1.0 scatter.length)
    else skyGradient rayDir sunDir
  let finalColor :=
    if st.enableSunDisc = true then finalColor + renderSunDisc rayDir sunDir st.sunIntensity
    else finalColor
  let finalColor :=
    if st.enableStars = true ∧ sunDir.y < 0.1 then
      let nightFactor := smoothstepR 0.1 (-0.1) sunDir.y
      finalColor + renderStars st.time rayDir (st.starIntensity * nightFactor)
    else finalColor
  let finalColor :=
    if st.enableMoon = true ∧ st.moonIntensity > 0.01 then
      finalColor + renderMoon rayDir moonDir sunDir st.moonIntensity
    else finalColor
  let finalColor :=
    if st.enableClouds = true ∧ st.cloudCoverage > 0.01 then
      let cloudAlpha := renderClouds st.time st.qualityLevel rayDir st.cloudCoverage
      let cloudSunColor := Vec3.smul ⟨1.0, 1.0, 1.0⟩ (max 0.3 (sunDir.y + 0.5))
      let cloudMoonColor := (Vec3.smul ⟨0.7, 0.75, 0.85⟩ st.moonIntensity).smul (max 0.0 moonDir.y)
      let cloudColor := cloudSunColor + cloudMoonColor
      Vec3.mixv finalColor cloudColor (cloudAlpha * 0.7)
    else finalColor
  let exposure := mixR 0.5 1.5 (smoothstepR (-0.2) 0.5 sunDir.y)
  let finalColor := finalColor.smul exposure
  let finalColor := acesToneMapping finalColor
  let finalColor := finalColor.powv ⟨1.0 / 2.2, 1.0 / 2.2, 1.0 / 2.2⟩
  let ditherValue := dither fragCoord
  let finalColor := finalColor + (⟨ditherValue, ditherValue, ditherValue⟩ : Vec3)
  let finalColor := finalColor.maxv ⟨0.01, 0.01, 0.02⟩
  ⟨finalColor.x, finalColor.y, finalColor.z, 1.0⟩

/-! ## Helper lemmas -/

lemma autoAdjust_low (fps target : ℝ) (st : SkyState) (h : fps < target * 0.8) :
    autoAdjustQuality fps target st =
      if st.qualityLevel > 0 then { st with qualityLevel := st.qualityLevel - 1 } else st := by
  unfold autoAdjustQuality
  rw [if_pos h]

lemma autoAdjust_high (fps target : ℝ) (st : SkyState)
    (h1 : ¬ fps < target * 0.8) (h2 : fps > target * 0.95) :
    autoAdjustQuality fps target st =
      if st.qualityLevel < 2 then { st with qualityLevel := st.qualityLevel + 1 } else st := by
  unfold autoAdjustQuality
  rw [if_neg h1, if_pos h2]

lemma autoAdjust_mid (fps target : ℝ) (st : SkyState)
    (h1 : ¬ fps < target * 0.8) (h2 : ¬ fps > target * 0.95) :
    autoAdjustQuality fps target st = st := by
  unfold autoAdjustQuality
  rw [if_neg h1, if_neg h2]

/-- C6: `autoAdjustQuality` hysteresis: for quality in {0,1,2}, a frame
rate below `0.8·target` decrements quality with floor 0; failing that, a
frame rate above `0.95·target` increments it with ceiling 2; in the band
between the two thresholds nothing changes.  In particular, at quality 1,
fps 40 with target 60 yields quality 0; at quality 0, fps 59 with target
60 yields quality 1; and fps 50 with target 60 leaves the state
unchanged. -/
theorem C6_autoAdjustQuality_hysteresis (fps target : ℝ) (st : SkyState)
    (hq : st.qualityLevel = 0 ∨ st.qualityLevel = 1 ∨ st.qualityLevel = 2) :
    (fps < target * 0.8 →
      (autoAdjustQuality fps target st).qualityLevel = max (st.qualityLevel - 1) 0) ∧
    (¬ fps < target * 0.8 → fps > target * 0.95 →
      (autoAdjustQuality fps target st).qualityLevel = min (st.qualityLevel + 1) 2) ∧
    (¬ fps < target * 0.8 → ¬ fps > target * 0.95 →
      autoAdjustQuality fps target st = st) ∧
    (st.qualityLevel = 1 → (autoAdjustQuality 40 60 st).qualityLevel = 0) ∧
    (st.qualityLevel = 0 → (autoAdjustQuality 59 60 st).qualityLevel = 1) ∧
    autoAdjustQuality 50 60 st = st := by
  have low : ∀ h : fps < target * 0.8,
      (autoAdjustQuality fps target st).qualityLevel = max (st.qualityLevel - 1) 0 := by
    intro h
    rw [autoAdjust_low fps target st h]
    rcases hq with h0 | h1 | h2
    · rw [if_neg (by rw [h0]; norm_num), h0]; norm_num
    · rw [if_pos (by rw [h1]; norm_num)]; simp only []; rw [h1]; norm_num
    · rw [if_pos (by rw [h2]; norm_num)]; simp only []; rw [h2]; norm_num
  refine ⟨low, ?_, autoAdjust_mid fps target st, ?_, ?_, ?_⟩
  · intro h1 h2
    rw [autoAdjust_high fps target st h1 h2]
    rcases hq with h0 | h1' | h2'
    · rw [if_pos (by rw [h0]; norm_num)]; simp only []; rw [h0]; norm_num
    · rw [if_pos (by rw [h1']; norm_num)]; simp only []; rw [h1']; norm_num
    · rw [if_neg (by rw [h2']; norm_num), h2']; norm_num
  · intro h1
    rw [autoAdjust_low 40 60 st (by norm_num), if_pos (by rw [h1]; norm_num)]
    simp only []; rw [h1]; norm_num
  · intro h0
    rw [autoAdjust_high 59 60 st (by norm_num) (by norm_num),
      if_pos (by rw [h0]; norm_num)]
    simp only []; rw [h0]; norm_num
  · exact autoAdjust_mid 50 60 st (by norm_num) (by norm_num)

/-- Witness for C6 at concrete inputs: quality 1, fps 40, target 60 drops
to quality 0; quality 0, fps 59, target 60 rises to quality 1; fps 50,
target 60 changes nothing. -/
theorem C6_witness :
    (testState.qualityLevel = 0 ∨ testState.qualityLevel = 1 ∨ testState.qualityLevel = 2) ∧
    (autoAdjustQuality 40 60 testState).qualityLevel = 0 ∧
    (autoAdjustQuality 59 60 { testState with qualityLevel := 0 }).qualityLevel = 1 ∧
    autoAdjustQuality 50 60 testState = testState := by
  have hq : testState.qualityLevel = 0 ∨ testState.qualityLevel = 1 ∨ testState.qualityLevel = 2 :=
    Or.inr (Or.inl rfl)
  have hq0 : ({ testState with qualityLevel := 0 } : SkyState).qualityLevel = 0 ∨
      ({ testState with qualityLevel := 0 } : SkyState).qualityLevel = 1 ∨
      ({ testState with qualityLevel := 0 } : SkyState).qualityLevel = 2 :=
    Or.inl rfl
  refine ⟨hq, ?_, ?_, ?_⟩
  · exact (C6_autoAdjustQuality_hysteresis 40 60 testState hq).2.2.2.1 rfl
  · exact (C6_autoAdjustQuality_hysteresis 59 60 _ hq0).2.2.2.2.1 rfl
  · exact (C6_autoAdjustQuality_hysteresis 50 60 testState hq).2.2.2.2.2

/-- C9: an unknown preset name is a silent no-op: whenever the name is
absent from the catalog, `applyPreset` returns the state unchanged (the
embedding is a total function, so no exception is possible). -/
theorem C9_applyPreset_unknown_noop (name : String) (st : SkyState)
    (h : SkyPresets name = none) : applyPreset name st = st := by
  unfold applyPreset
  rw [h]

/-- Witness for C9 at the concrete name `"DOES_NOT_EXIST"` and a
concrete state. -/
theorem C9_witness :
    SkyPresets "DOES_NOT_EXIST" = none ∧
    applyPreset "DOES_NOT_EXIST" testState = testState := by
  have h : SkyPresets "DOES_NOT_EXIST" = none := rfl
  exact ⟨h, C9_applyPreset_unknown_noop "DOES_NOT_EXIST" testState h⟩

/-- C2 (code-bug evidence): applying `OVERCAST` overwrites turbidity,
mieDirectionalG, sunIntensity, cloudCoverage, starIntensity,
moonIntensity and the four enable flags (with `enableSunDisc := false`)
and leaves unlisted fields such as `moonDirection` untouched — but it
does NOT overwrite `rayleighCoeff` or `mieCoeff`: the preset keys
`"rayleigh"` and `"mieCoefficient"` match no uniform name, so
`uniforms[key]` is `undefined` and the write is skipped, leaving the old
values (here 1 and 0.005) in place instead of the preset's 2.0 and 0.02. -/
theorem C2_applyPreset_overcast_skips_mismatched_keys :
    (applyPreset "OVERCAST" testState).turbidity = 10.0 ∧
    (applyPreset "OVERCAST" testState).mieDirectionalG = 0.5 ∧
    (applyPreset "OVERCAST" testState).sunIntensity = 0.5 ∧
    (applyPreset "OVERCAST" testState).cloudCoverage = 0.8 ∧
    (applyPreset "OVERCAST" testState).starIntensity = 0.0 ∧
    (applyPreset "OVERCAST" testState).moonIntensity = 0.0 ∧
    (applyPreset "OVERCAST" testState).enableStars = false ∧
    (applyPreset "OVERCAST" testState).enableClouds = true ∧
    (applyPreset "OVERCAST" testState).enableMoon = false ∧
    (applyPreset "OVERCAST" testState).enableSunDisc = false ∧
    (applyPreset "OVERCAST" testState).rayleighCoeff = testState.rayleighCoeff ∧
    (applyPreset "OVERCAST" testState).rayleighCoeff ≠ 2.0 ∧
    (applyPreset "OVERCAST" testState).mieCoeff = testState.mieCoeff ∧
    (applyPreset "OVERCAST" testState).mieCoeff ≠ 0.02 ∧
    (applyPreset "OVERCAST" testState).moonDirection = testState.moonDirection ∧
    (applyPreset "OVERCAST" testState).sunDirection = testState.sunDirection ∧
    (applyPreset "OVERCAST" testState).timeOfDay = testState.timeOfDay ∧
    (applyPreset "OVERCAST" testState).time = testState.time ∧
    (applyPreset "OVERCAST" testState).qualityLevel = testState.qualityLevel := by
  have h : applyPreset "OVERCAST" testState =
      { testState with
        turbidity := 10.0, mieDirectionalG := 0.5, sunIntensity := 0.5,
        cloudCoverage := 0.8, starIntensity := 0.0, moonIntensity := 0.0,
        enableStars := false, enableClouds := true, enableMoon := false,
        enableSunDisc := false } := rfl
  rw [h]
  refine ⟨rfl, rfl, rfl, rfl, rfl, rfl, rfl, rfl, rfl, rfl, rfl, ?_, rfl, ?_, rfl, rfl, rfl, rfl, rfl⟩
  · show (testState.rayleighCoeff : ℝ) ≠ 2.0
    norm_num [testState]
  · show (testState.mieCoeff : ℝ) ≠ 0.02
    norm_num [testState]

lemma length_setFromSpherical_one (phi theta : ℝ) :
    (setFromSphericalCoords 1 phi theta).length = 1 := by
  unfold Vec3.length setFromSphericalCoords Vec3.dot
  have h : Real.sin phi * 1 * Real.sin theta * (Real.sin phi * 1 * Real.sin theta) +
      Real.cos phi * 1 * (Real.cos phi * 1) +
      Real.sin phi * 1 * Real.cos theta * (Real.sin phi * 1 * Real.cos theta) = 1 := by
    have h1 := Real.sin_sq_add_cos_sq theta
    have h2 := Real.sin_sq_add_cos_sq phi
    nlinarith [h1, h2]
  rw [h]
  exact Real.sqrt_one

lemma normalize_y_of_unit (v : Vec3) (h : v.length = 1) : v.normalize.y = v.y := by
  unfold Vec3.normalize
  rw [if_neg (by rw [h]; norm_num), h]
  simp [Vec3.divs]

lemma animate_sunDirection (t s : ℝ) (st : SkyState) :
    (animate t s st).sunDirection = dirFromAzEl (animAzimuth t s) (animElevation t s) := rfl

lemma animate_timeOfDay (t s : ℝ) (st : SkyState) :
    (animate t s st).timeOfDay = (Real.sin (animElevation t s) + 1.0) * 0.5 := rfl

lemma animate_moonDirection (t s : ℝ) (st : SkyState) :
    (animate t s st).moonDirection =
      dirFromAzEl (animAzimuth t s + Real.pi) (-animElevation t s) := rfl

lemma animate_moonIntensity (t s : ℝ) (st : SkyState) :
    (animate t s st).moonIntensity = max 0 (-Real.sin (animElevation t s)) * 1.5 := rfl

lemma animate_cloudCoverage (t s : ℝ) (st : SkyState) :
    (animate t s st).cloudCoverage = max 0 (st.cloudCoverage - coverageVariation t s) := rfl

lemma animate_time (t s : ℝ) (st : SkyState) : (animate t s st).time = t := rfl

lemma animate_untouched (t s : ℝ) (st : SkyState) :
    (animate t s st).sunIntensity = st.sunIntensity ∧
    (animate t s st).turbidity = st.turbidity ∧
    (animate t s st).rayleighCoeff = st.rayleighCoeff ∧
    (animate t s st).mieCoeff = st.mieCoeff ∧
    (animate t s st).mieDirectionalG = st.mieDirectionalG ∧
    (animate t s st).starIntensity = st.starIntensity ∧
    (animate t s st).enableStars = st.enableStars ∧
    (animate t s st).enableClouds = st.enableClouds ∧
    (animate t s st).enableMoon = st.enableMoon ∧
    (animate t s st).enableSunDisc = st.enableSunDisc ∧
    (animate t s st).qualityLevel = st.qualityLevel :=
  ⟨rfl, rfl, rfl, rfl, rfl, rfl, rfl, rfl, rfl, rfl, rfl⟩

/-- C3: the derived-field invariant `timeOfDay = (sunDirection.y + 1)/2`
holds after `updateSunPosition`, `updateSunFromSpherical` (hence
`setSunPosition`) and `animate`; and for every elevation `e` in
[−90, 90] degrees, `setSunPosition e azimuth` stores
`timeOfDay = (sin(e·π/180)+1)/2`. -/
theorem C3_timeOfDay_invariant :
    (∀ az el i st, (updateSunPosition az el i st).timeOfDay =
      ((updateSunPosition az el i st).sunDirection.y + 1) / 2) ∧
    (∀ r phi theta st, (updateSunFromSpherical r phi theta st).timeOfDay =
      ((updateSunFromSpherical r phi theta st).sunDirection.y + 1) / 2) ∧
    (∀ t s st, (animate t s st).timeOfDay =
      ((animate t s st).sunDirection.y + 1) / 2) ∧
    (∀ e az st, -90 ≤ e → e ≤ 90 → (setSunPosition e az st).timeOfDay =
      (Real.sin (e * Real.pi / 180) + 1) / 2) := by
  refine ⟨?_, ?_, ?_, ?_⟩
  · intro az el i st
    cases i <;> simp [updateSunPosition, dirFromAzEl] <;> ring
  · intro r phi theta st
    simp only [updateSunFromSpherical]
    ring
  · intro t s st
    rw [animate_timeOfDay, animate_sunDirection]
    simp only [dirFromAzEl]
    ring
  · intro e az st _ _
    show ((setFromSphericalCoords 1 (degToRad (90 - e)) (degToRad az)).normalize.y + 1.0) * 0.5 =
      (Real.sin (e * Real.pi / 180) + 1) / 2
    rw [normalize_y_of_unit _ (length_setFromSpherical_one _ _)]
    show (Real.cos (degToRad (90 - e)) * 1 + 1.0) * 0.5 = (Real.sin (e * Real.pi / 180) + 1) / 2
    have harg : degToRad (90 - e) = Real.pi / 2 - e * Real.pi / 180 := by
      unfold degToRad; ring
    rw [harg, Real.cos_pi_div_two_sub]
    ring

/-- Witness for C3 at the concrete elevation 30° (within [−90, 90]) and
azimuth 0. -/
theorem C3_witness :
    ((-90 : ℝ) ≤ 30 ∧ (30 : ℝ) ≤ 90) ∧
    (setSunPosition 30 0 testState).timeOfDay = (Real.sin (30 * Real.pi / 180) + 1) / 2 :=
  ⟨⟨by norm_num, by norm_num⟩,
    C3_timeOfDay_invariant.2.2.2 30 0 testState (by norm_num) (by norm_num)⟩

/-- C4: antipodal moon placement: after `animate(t, s)` the moon's
`y`-component is the negation of the sun's, and the sun and moon
directions are produced from azimuth/elevation pairs whose azimuths
differ by exactly π (hence by π mod 2π) with negated elevations. -/
theorem C4_antipodal_moon (t s : ℝ) (st : SkyState) :
    (animate t s st).moonDirection.y = -(animate t s st).sunDirection.y ∧
    ∃ az el, (animate t s st).sunDirection = dirFromAzEl az el ∧
      (animate t s st).moonDirection = dirFromAzEl (az + Real.pi) (-el) := by
  constructor
  · rw [animate_moonDirection, animate_sunDirection]
    simp [dirFromAzEl, Real.sin_neg]
  · exact ⟨animAzimuth t s, animElevation t s,
      animate_sunDirection t s st, animate_moonDirection t s st⟩

/-- C5: after `animate(t, s)` the stored `moonIntensity` equals
`max(0, -sin(sunElevation)) * 1.5`, and whenever the resulting
`sunDirection.y` is nonnegative it is exactly 0. -/
theorem C5_moonIntensity_derived (t s : ℝ) (st : SkyState) :
    (animate t s st).moonIntensity = max 0 (-Real.sin (animElevation t s)) * 1.5 ∧
    ((animate t s st).sunDirection.y ≥ 0 → (animate t s st).moonIntensity = 0) := by
  refine ⟨animate_moonIntensity t s st, ?_⟩
  intro hy
  rw [animate_sunDirection] at hy
  simp only [dirFromAzEl] at hy
  rw [animate_moonIntensity, max_eq_left (by linarith)]
  ring

/-- Witness for C5 at `t = 0`, `s = 1`: the sun sits exactly on the
horizon (`sunDirection.y = 0 ≥ 0`) and the moon intensity is 0. -/
theorem C5_witness :
    (animate 0 1 testState).sunDirection.y ≥ 0 ∧
    (animate 0 1 testState).moonIntensity = 0 := by
  have hy : (animate 0 1 testState).sunDirection.y = 0 := by
    rw [animate_sunDirection]
    simp [dirFromAzEl, animElevation]
  exact ⟨hy.ge, (C5_moonIntensity_derived 0 1 testState).2 hy.ge⟩

lemma coverageVariation_zero_one : coverageVariation 0 1 = 0.2 := by
  have h : (Real.sin ((0 : ℝ) * 1) + 1.0) * 0.5 * Real.pi = Real.pi / 2 := by
    rw [show (0 : ℝ) * 1 = 0 by ring, Real.sin_zero]
    ring
  unfold coverageVariation
  rw [h, Real.sin_pi_div_two]
  norm_num

/-- C1 counterexample: with initial `cloudCoverage = 0.4`, the call
`animate(0, 1)` leaves coverage 0.2, and an immediately repeated
`animate(0, 1)` reduces it again to 0 — the cloudCoverage field is NOT
left as it was, refuting idempotence as claimed. -/
theorem C1_counterexample :
    (animate 0 1 testState).cloudCoverage = 0.2 ∧
    (animate 0 1 (animate 0 1 testState)).cloudCoverage = 0 ∧
    ¬ (animate 0 1 (animate 0 1 testState)).cloudCoverage =
        (animate 0 1 testState).cloudCoverage := by
  have h1 : (animate 0 1 testState).cloudCoverage = 0.2 := by
    rw [animate_cloudCoverage, coverageVariation_zero_one]
    show max 0 ((0.4 : ℝ) - 0.2) = 0.2
    rw [show (0.4 : ℝ) - 0.2 = 0.2 by norm_num,
      max_eq_right (by norm_num : (0 : ℝ) ≤ 0.2)]
  have h2 : (animate 0 1 (animate 0 1 testState)).cloudCoverage = 0 := by
    rw [animate_cloudCoverage, h1, coverageVariation_zero_one]
    rw [show (0.2 : ℝ) - 0.2 = 0 by norm_num, max_self]
  refine ⟨h1, h2, ?_⟩
  rw [h1, h2]
  norm_num

/-- C1 amended: a repeated `animate(t, s)` call leaves every
SkyParameters field unchanged EXCEPT `cloudCoverage`, which has the same
time-of-day-dependent variation subtracted from it a second time
(clamped at 0); idempotence holds for all other fields but fails for
cloud coverage whenever the variation is nonzero and coverage has not
yet reached 0. -/
theorem C1_animate_idempotent_except_clouds (t s : ℝ) (st : SkyState) :
    (animate t s (animate t s st)).sunDirection = (animate t s st).sunDirection ∧
    (animate t s (animate t s st)).sunIntensity = (animate t s st).sunIntensity ∧
    (animate t s (animate t s st)).moonDirection = (animate t s st).moonDirection ∧
    (animate t s (animate t s st)).moonIntensity = (animate t s st).moonIntensity ∧
    (animate t s (animate t s st)).turbidity = (animate t s st).turbidity ∧
    (animate t s (animate t s st)).rayleighCoeff = (animate t s st).rayleighCoeff ∧
    (animate t s (animate t s st)).mieCoeff = (animate t s st).mieCoeff ∧
    (animate t s (animate t s st)).mieDirectionalG = (animate t s st).mieDirectionalG ∧
    (animate t s (animate t s st)).timeOfDay = (animate t s st).timeOfDay ∧
    (animate t s (animate t s st)).starIntensity = (animate t s st).starIntensity ∧
    (animate t s (animate t s st)).time = (animate t s st).time ∧
    (animate t s (animate t s st)).enableStars = (animate t s st).enableStars ∧
    (animate t s (animate t s st)).enableClouds = (animate t s st).enableClouds ∧
    (animate t s (animate t s st)).enableMoon = (animate t s st).enableMoon ∧
    (animate t s (animate t s st)).enableSunDisc = (animate t s st).enableSunDisc ∧
    (animate t s (animate t s st)).qualityLevel = (animate t s st).qualityLevel ∧
    (animate t s (animate t s st)).cloudCoverage =
      max 0 ((animate t s st).cloudCoverage - coverageVariation t s) :=
  ⟨rfl, rfl, rfl, rfl, rfl, rfl, rfl, rfl, rfl, rfl, rfl, rfl, rfl, rfl, rfl, rfl,
    animate_cloudCoverage t s (animate t s st)⟩

/-- C7: below-horizon cutoff: for every unit view direction with
`y < -0.02` and arbitrary sun direction, sun intensity and scattering
coefficients, `atmosphericScattering` returns exactly `(0,0,0)`. -/
theorem C7_below_horizon_black (rayDir sunDir : Vec3)
    (sunInt rayleighCoeff mieCoeff mieDirectionalG : ℝ)
    (hunit : rayDir.length = 1) (h : rayDir.y < -0.02) :
    atmosphericScattering rayDir sunDir sunInt rayleighCoeff mieCoeff mieDirectionalG =
      ⟨0, 0, 0⟩ := by
  have hfac : smoothstepR (-HORIZON_FADE) HORIZON_FADE rayDir.y = 0 := by
    unfold smoothstepR clampR HORIZON_FADE
    have hv : (rayDir.y - -(0.02 : ℝ)) / ((0.02 : ℝ) - -0.02) < 0 := by
      apply div_neg_of_neg_of_pos
      · linarith
      · norm_num
    rw [max_eq_right hv.le, min_eq_left (by norm_num : (0 : ℝ) ≤ 1)]
    ring
  simp only [atmosphericScattering, hfac]
  norm_num

/-- Witness for C7: the straight-down view direction `(0, -1, 0)` is a
unit vector with `y < -0.02`, and the scattering output is black. -/
theorem C7_witness :
    (⟨0, -1, 0⟩ : Vec3).length = 1 ∧ ((⟨0, -1, 0⟩ : Vec3).y < -0.02) ∧
    atmosphericScattering ⟨0, -1, 0⟩ ⟨0, 1, 0⟩ 1 1 0.005 0.8 = ⟨0, 0, 0⟩ := by
  have hlen : (⟨0, -1, 0⟩ : Vec3).length = 1 := by
    unfold Vec3.length Vec3.dot
    norm_num
  have hy : ((⟨0, -1, 0⟩ : Vec3).y < -0.02) := by norm_num [Vec3.y]
  exact ⟨hlen, hy, C7_below_horizon_black _ _ _ _ _ _ hlen hy⟩

lemma Vec3.dot_sq_le (a b : Vec3) : (a.dot b) ^ 2 ≤ a.dot a * b.dot b := by
  simp only [Vec3.dot]
  nlinarith [sq_nonneg (a.x * b.y - a.y * b.x), sq_nonneg (a.x * b.z - a.z * b.x),
    sq_nonneg (a.y * b.z - a.z * b.y)]

lemma Vec3.dot_self_eq_one (a : Vec3) (h : a.length = 1) : a.dot a = 1 := by
  have h0 : 0 ≤ a.dot a := by
    simp only [Vec3.dot]
    nlinarith [sq_nonneg a.x, sq_nonneg a.y, sq_nonneg a.z]
  have h1 : Real.sqrt (a.dot a) ^ 2 = 1 ^ 2 := by
    rw [show Real.sqrt (a.dot a) = a.length from rfl, h]
  rwa [Real.sq_sqrt h0, one_pow] at h1

lemma dot_bounds_of_unit (a b : Vec3) (ha : a.length = 1) (hb : b.length = 1) :
    -1 ≤ a.dot b ∧ a.dot b ≤ 1 := by
  have h := Vec3.dot_sq_le a b
  rw [a.dot_self_eq_one ha, b.dot_self_eq_one hb] at h
  constructor <;> nlinarith [h]

/-- C8 counterexample: the phase `(dot+1)/2` does NOT take its maximum
when the moon is opposite the sun — with the sun at `(0,1,0)`, the
antipodal moon direction `(0,-1,0)` gives phase 0 (the minimum), while
the aligned direction `(0,1,0)` gives phase 1. -/
theorem C8_counterexample :
    moonPhase ⟨0, -1, 0⟩ ⟨0, 1, 0⟩ = 0 ∧
    moonPhase ⟨0, 1, 0⟩ ⟨0, 1, 0⟩ = 1 ∧
    ¬ moonPhase ⟨0, 1, 0⟩ ⟨0, 1, 0⟩ ≤ moonPhase ⟨0, -1, 0⟩ ⟨0, 1, 0⟩ := by
  norm_num [moonPhase, Vec3.dot]

/-- C8 amended: for unit `moonDir` and `sunDir`, the moon phase equals
`(dot(moonDir, sunDir)+1)/2` and lies in [0,1]; it attains its maximum 1
when the moon is ALIGNED with the sun and its minimum 0 when the moon is
opposite the sun (so the code labels `dot = 1` as full moon, not the
antipodal configuration); the surface brightness factor equals
`phase*0.8+0.2` and is therefore always at least 0.2 (never fully
dark). -/
theorem C8_moon_phase_contract (moonDir sunDir : Vec3)
    (hm : moonDir.length = 1) (hs : sunDir.length = 1) :
    moonPhase moonDir sunDir = (moonDir.dot sunDir + 1) / 2 ∧
    0 ≤ moonPhase moonDir sunDir ∧ moonPhase moonDir sunDir ≤ 1 ∧
    moonPhase sunDir sunDir = 1 ∧
    moonPhase (Vec3.neg sunDir) sunDir = 0 ∧
    moonBrightness (moonPhase moonDir sunDir) = moonPhase moonDir sunDir * 0.8 + 0.2 ∧
    0.2 ≤ moonBrightness (moonPhase moonDir sunDir) := by
  obtain ⟨hge, hle⟩ := dot_bounds_of_unit moonDir sunDir hm hs
  have hss := sunDir.dot_self_eq_one hs
  have hneg : (Vec3.neg sunDir).dot sunDir = -(sunDir.dot sunDir) := by
    simp only [Vec3.dot, Vec3.neg]
    ring
  refine ⟨by unfold moonPhase; ring, by unfold moonPhase; linarith,
    by unfold moonPhase; linarith, ?_, ?_, rfl, ?_⟩
  · unfold moonPhase
    rw [hss]
    norm_num
  · unfold moonPhase
    rw [hneg, hss]
    norm_num
  · unfold moonBrightness moonPhase
    nlinarith [hge]

/-- Witness for C8 at the unit vectors `moonDir = (0,1,0)`,
`sunDir = (1,0,0)`: the brightness floor 0.2 holds there. -/
theorem C8_witness :
    (⟨0, 1, 0⟩ : Vec3).length = 1 ∧ (⟨1, 0, 0⟩ : Vec3).length = 1 ∧
    0.2 ≤ moonBrightness (moonPhase ⟨0, 1, 0⟩ ⟨1, 0, 0⟩) := by
  have h1 : (⟨0, 1, 0⟩ : Vec3).length = 1 := by
    unfold Vec3.length Vec3.dot
    norm_num
  have h2 : (⟨1, 0, 0⟩ : Vec3).length = 1 := by
    unfold Vec3.length Vec3.dot
    norm_num
  exact ⟨h1, h2, (C8_moon_phase_contract ⟨0, 1, 0⟩ ⟨1, 0, 0⟩ h1 h2).2.2.2.2.2.2⟩

/-- C10: implicit output floor: for every uniform state, world direction
and fragment coordinate, the shader's final color satisfies
`r ≥ 0.01`, `g ≥ 0.01`, `b ≥ 0.02` and `alpha = 1` — the rendered sky is
never pure black. -/
theorem C10_output_floor (st : SkyState) (vWorldDirection : Vec3) (fragCoord : Vec2) :
    0.01 ≤ (shaderMain st vWorldDirection fragCoord).r ∧
    0.01 ≤ (shaderMain st vWorldDirection fragCoord).g ∧
    0.02 ≤ (shaderMain st vWorldDirection fragCoord).b ∧
    (shaderMain st vWorldDirection fragCoord).a = 1 := by
  refine ⟨?_, ?_, ?_, ?_⟩ <;>
    simp only [shaderMain, Vec3.maxv]
  · exact le_max_right _ _
  · exact le_max_right _ _
  · exact le_max_right _ _
  · norm_num
